import Mathlib

namespace QtMcp

/-! Shallow embedding of the QtMCP python client core: the JSON-RPC probe
connection (connection.py), the UDP discovery registry (discovery.py), the
event recorder (event_recorder.py) and the readiness waiter (server.py).
Python floats and monotonic clock readings are modelled as exact rationals;
Python dicts are association lists whose keys are unique. -/

/-- Shallow embedding of Python/JSON values as exchanged with the probe.
Numbers are modelled as exact rationals; null stands for Python None. -/
inductive Json where
  | null : Json
  | bool (b : Bool) : Json
  | num (q : ℚ) : Json
  | str (s : String) : Json
  | arr (xs : List Json) : Json
  | obj (fields : List (String × Json)) : Json

/-- Python truthiness of a JSON value: None, False, 0, empty string, empty
list and empty dict are falsy; everything else is truthy. -/
def Json.truthy : Json → Bool
  | .null => false
  | .bool b => b
  | .num q => q ≠ 0
  | .str s => s ≠ ""
  | .arr xs => !xs.isEmpty
  | .obj fs => !fs.isEmpty

/-- Whether the value is a Python dict (JSON object). -/
def Json.isObj : Json → Bool
  | .obj _ => true
  | _ => false

/-- Whether the value is null (Python None). -/
def Json.isNull : Json → Bool
  | .null => true
  | _ => false

/-- First-match lookup in an association list modelling a Python dict
(keys of a Python dict are unique, so the first match is the match). -/
def dlookup {β : Type} : List (String × β) → String → Option β
  | [], _ => none
  | (k, v) :: rest, key => if k = key then some v else dlookup rest key

/-- Lookup of a key in a dict value; none when the value is not a dict or
the key is absent. -/
def Json.get? : Json → String → Option Json
  | .obj fields, k => dlookup fields k
  | _, _ => none

/-- Python d.get(k) on a dict value: None when the key is absent. -/
def Json.pyGet (j : Json) (k : String) : Json :=
  (j.get? k).getD .null

/-- Python dict assignment d[k] = v: replace in place when the key exists,
otherwise append (Python dicts preserve insertion order). -/
def dset {β : Type} (d : List (String × β)) (k : String) (v : β) :
    List (String × β) :=
  if d.any (fun p => p.1 = k) then
    d.map (fun p => if p.1 = k then (k, v) else p)
  else d ++ [(k, v)]

/-- Python d.pop(k, None): remove the entry with the given key (dict keys are
unique, so at most one entry is involved). -/
def dpop {β : Type} (d : List (String × β)) (k : String) :
    List (String × β) :=
  d.filter (fun p => p.1 ≠ k)

/-- Python d.update(upd): set every binding of upd into d, in order. -/
def dictUpdate {β : Type} (d upd : List (String × β)) :
    List (String × β) :=
  upd.foldl (fun acc kv => dset acc kv.1 kv.2) d

/-! ## RPC connection (connection.py) -/

/-- Embeds the ProbeError exception value (connection.py lines 14-30).
The constructor defaults are code = -1 and data = None; from_jsonrpc passes
through whatever JSON values the error object holds, so all three fields are
kept as JSON values. -/
structure ProbeError where
  message : Json
  code : Json
  data : Json

/-- Embeds ProbeError.from_jsonrpc (connection.py lines 23-30): build the
exception from a JSON-RPC error object with the get-defaults of the source
(message defaults to "Unknown probe error", code to -1, data to None).
Returns none when the error value is not a dict, modelling the
AttributeError Python's error.get would raise then. -/
def ProbeError.from_jsonrpc (error : Json) : Option ProbeError :=
  if error.isObj then
    some { message := (error.get? "message").getD (.str "Unknown probe error")
         , code := (error.get? "code").getD (.num (-1))
         , data := error.pyGet "data" }
  else none

/-- Embeds the mutable state of ProbeConnection (connection.py lines 39-45).
ws records whether _ws is non-None; pending maps each registered request id
to whether its future is already done (e.g. cancelled by the caller) before
the receive loop touches it. -/
structure ConnState where
  ws : Bool
  next_id : Nat
  pending : List (Nat × Bool)
  connected : Bool

/-- Embeds ProbeConnection.__init__ (connection.py lines 39-45). -/
def ProbeConnection.init : ConnState :=
  { ws := false, next_id := 1, pending := [], connected := false }

/-- Embeds the state effect of ProbeConnection.connect (connection.py lines
57-63): the stream is opened and the state marked connected; next_id and
pending are untouched. -/
def ProbeConnection.connect (st : ConnState) : ConnState :=
  { st with ws := true, connected := true }

/-- Embeds the state effect of ProbeConnection.disconnect (connection.py
lines 65-86): marks disconnected, closes the stream, fails every pending
future with ConnectionError and clears the pending set; next_id is
untouched. -/
def ProbeConnection.disconnect (st : ConnState) : ConnState :=
  { st with connected := false, ws := false, pending := [] }

/-- Python "params or {}" (connection.py line 110). -/
def pyOrEmptyObj (params : Option Json) : Json :=
  match params with
  | none => .obj []
  | some p => if p.truthy then p else .obj []

/-- Outcome of starting a call (connection.py lines 88-121): either the
immediate not-connected ProbeError is raised before anything is sent, or a
request id is allocated, a pending slot registered and the request sent. -/
inductive CallStart where
  | notConnected (e : ProbeError)
  | sent (st : ConnState) (request : Json) (id : Nat)

/-- Embeds the synchronous prefix of ProbeConnection.call (connection.py
lines 88-121): the not-connected guard, id allocation, request construction
and pending-slot registration.  The await of the future is modelled by the
receive loop resolving the id (recv_loop_step). -/
def ProbeConnection.call (st : ConnState) (method : String)
    (params : Option Json) : CallStart :=
  if !st.connected || !st.ws then
    .notConnected { message := .str "Not connected to probe"
                  , code := .num (-1), data := .null }
  else
    let request_id := st.next_id
    let st := { st with next_id := st.next_id + 1 }
    let request : Json := .obj
      [ ("jsonrpc", .str "2.0")
      , ("method", .str method)
      , ("params", pyOrEmptyObj params)
      , ("id", .num request_id) ]
    let st := { st with pending := st.pending ++ [(request_id, false)] }
    .sent st request request_id

/-- Whether a JSON id value equals an integer pending key under Python
equality (msg_id in self._pending, connection.py line 137): numbers compare
by value and booleans compare as 1 and 0. -/
def idMatches (j : Json) (k : Nat) : Bool :=
  match j with
  | .num q => q = (k : ℚ)
  | .bool b => (if b then (1 : ℚ) else 0) = (k : ℚ)
  | _ => false

/-- How a pending future is resolved by the receive loop. -/
inductive RpcOutcome where
  | ok (result : Json)
  | err (e : ProbeError)

/-- Observable effect of one receive-loop iteration: a message dropped with
no state change, a pending future resolved, or an uncaught exception that
terminates the loop (caught by the outer handler, which then fails all
remaining pending futures). -/
inductive LoopEffect where
  | ignored
  | resolve (id : Nat) (outcome : RpcOutcome)
  | crash

/-- Embeds one iteration of ProbeConnection._recv_loop (connection.py lines
126-149) on a single inbound frame.  The input is none when json.loads
failed (the message is dropped).  A message that is not a dict makes
msg.get raise, which the loop-level handler treats as fatal (crash).  A
message whose id is missing, null, or not a pending key is dropped — the
source has no notification dispatch, only the "Notification or unmatched
response -- ignore" branch.  Otherwise the pending entry is popped; a
future already done is skipped; an error member resolves the future with a
ProbeError via from_jsonrpc, else the result member (defaulting to an empty
object) resolves it. -/
def ProbeConnection.recv_loop_step (st : ConnState) (raw : Option Json) :
    ConnState × LoopEffect :=
  match raw with
  | Option.none => (st, .ignored)
  | some msg =>
    if !msg.isObj then (st, .crash)
    else
      let msg_id := msg.pyGet "id"
      if msg_id.isNull || !(st.pending.any fun p => idMatches msg_id p.1) then
        (st, .ignored)
      else
        match st.pending.find? (fun p => idMatches msg_id p.1) with
        | Option.none => (st, .ignored)
        | some entry =>
          let st := { st with
            pending := st.pending.eraseP (fun p => idMatches msg_id p.1) }
          if entry.2 then (st, .ignored)
          else
            match msg.get? "error" with
            | some e =>
              match ProbeError.from_jsonrpc e with
              | some pe => (st, .resolve entry.1 (.err pe))
              | Option.none => (st, .crash)
            | Option.none =>
              (st, .resolve entry.1 (.ok ((msg.get? "result").getD (.obj []))))

/-- A sequence of call invocations issued back to back with no awaiting in
between (so the receive loop never runs in between); returns the final
state and the request ids assigned in invocation order.  A raised
not-connected error aborts the sequence, as the exception propagates. -/
def ProbeConnection.callSeq :
    ConnState → List (String × Option Json) → ConnState × List Nat
  | st, [] => (st, [])
  | st, (m, p) :: rest =>
    match ProbeConnection.call st m p with
    | .notConnected _ => (st, [])
    | .sent st' _ i =>
      let r := ProbeConnection.callSeq st' rest
      (r.1, i :: r.2)

/-! ## Discovery listener (discovery.py) -/

/-- Embeds DiscoveredProbe (discovery.py lines 19-45): one probe instance
seen via UDP broadcast.  last_seen is a monotonic clock reading. -/
structure DiscoveredProbe where
  app_name : String
  pid : Int
  qt_version : String
  ws_port : Int
  hostname : String
  mode : String
  address : String
  last_seen : ℚ
  uptime : ℚ

/-- Embeds DiscoveredProbe.key (discovery.py lines 38-41): the identity
string "address:pid:ws_port". -/
def DiscoveredProbe.key (p : DiscoveredProbe) : String :=
  p.address ++ ":" ++ toString p.pid ++ ":" ++ toString p.ws_port

/-- Embeds DiscoveredProbe.is_stale (discovery.py lines 43-45). -/
def DiscoveredProbe.is_stale (p : DiscoveredProbe) (now timeout : ℚ) : Bool :=
  now - p.last_seen > timeout

/-- Embeds the shape of an announce datagram (discovery protocol, with every
payload field possibly absent); on_announce substitutes its defaults for
absent fields. -/
structure AnnounceMsg where
  appName : Option String := none
  pid : Option Int := none
  qtVersion : Option String := none
  wsPort : Option Int := none
  hostname : Option String := none
  mode : Option String := none
  uptime : Option ℚ := none

/-- The probe registry _probes (discovery.py line 83): a dict keyed by the
probe identity string.  Keys are unique, as in any Python dict. -/
abbrev Registry := List (String × DiscoveredProbe)

/-- The DiscoveredProbe built by DiscoveryListener.on_announce (discovery.py
lines 135-145): message fields with the get-defaults of the source, and
last_seen stamped with the current monotonic time. -/
def DiscoveryListener.announceProbe (msg : AnnounceMsg)
    (source_addr : String) (now : ℚ) : DiscoveredProbe :=
  { app_name := msg.appName.getD "unknown"
  , pid := msg.pid.getD 0
  , qt_version := msg.qtVersion.getD "unknown"
  , ws_port := msg.wsPort.getD 9222
  , hostname := msg.hostname.getD "unknown"
  , mode := msg.mode.getD "all"
  , address := source_addr
  , last_seen := now
  , uptime := msg.uptime.getD 0 }

/-- Embeds the registry effect of DiscoveryListener.on_announce
(discovery.py lines 133-157): upsert the built probe under its identity
key.  The is_new branch only logs, signals waiters and runs callbacks; it
does not touch the registry. -/
def DiscoveryListener.on_announce (r : Registry) (msg : AnnounceMsg)
    (source_addr : String) (now : ℚ) : Registry :=
  let probe := DiscoveryListener.announceProbe msg source_addr now
  dset r probe.key probe

/-- Embeds DiscoveryListener.on_goodbye (discovery.py lines 159-166):
rebuild the identity key from the message (same defaults) and pop it. -/
def DiscoveryListener.on_goodbye (r : Registry) (pid? wsPort? : Option Int)
    (source_addr : String) : Registry :=
  let key := source_addr ++ ":" ++ toString (pid?.getD 0) ++ ":"
    ++ toString (wsPort?.getD 9222)
  dpop r key

/-- Embeds DiscoveryListener.prune_stale (discovery.py lines 182-188):
collect the keys of stale probes, pop each, and return the removed keys. -/
def DiscoveryListener.prune_stale (r : Registry) (now timeout : ℚ) :
    Registry × List String :=
  let stale_keys :=
    (r.filter (fun p => p.2.is_stale now timeout)).map Prod.fst
  (stale_keys.foldl (fun acc k => dpop acc k) r, stale_keys)

/-! ## Event recorder (event_recorder.py) -/

/-- Python round(x, 3): round to 3 decimal places with round-half-to-even
(banker's rounding), on the exact rational value. -/
def pyRound3 (q : ℚ) : ℚ :=
  let scaled := q * 1000
  let f : ℤ := ⌊scaled⌋
  let r : ℤ :=
    if scaled - f < 1/2 then f
    else if scaled - f > 1/2 then f + 1
    else if f % 2 = 0 then f else f + 1
  (r : ℚ) / 1000

/-- Python "v or None" applied to an optional lookup result
(params.get("objectName") or None): the value when truthy, else None. -/
def pyOrNone (v : Option Json) : Option Json :=
  match v with
  | some x => if x.truthy then some x else none
  | none => none

/-- Embeds RecordedEvent (event_recorder.py lines 54-63). -/
structure RecordedEvent where
  timestamp : ℚ
  event_type : String
  object_id : Json
  object_name : Option Json := none
  detail : Json := .str ""
  arguments : Json := .arr []

/-- Embeds RecordedEvent.to_dict (event_recorder.py lines 65-79): always t
(3-decimal rounding), type and object; name only when the stored object
name is truthy; signal events add signal and args; object_created events
add class. -/
def RecordedEvent.to_dict (e : RecordedEvent) : List (String × Json) :=
  let d : List (String × Json) :=
    [ ("t", .num (pyRound3 e.timestamp))
    , ("type", .str e.event_type)
    , ("object", e.object_id) ]
  let d := d ++ (match e.object_name with
    | some n => if n.truthy then [("name", n)] else []
    | none => [])
  if e.event_type = "signal" then
    d ++ [("signal", e.detail), ("args", e.arguments)]
  else if e.event_type = "object_created" then
    d ++ [("class", e.detail)]
  else d

/-- Embeds RecordedInputEvent (event_recorder.py lines 82-91). -/
structure RecordedInputEvent where
  timestamp : ℚ
  event_type : String
  object_id : Json
  object_name : Option Json := none
  class_name : Json := .str ""
  detail : List (String × Json) := []

/-- Embeds RecordedInputEvent.to_dict (event_recorder.py lines 93-105):
always t, type "event", event, object, class; name only when truthy; then
the detail fields are merged in directly via dict update. -/
def RecordedInputEvent.to_dict (e : RecordedInputEvent) :
    List (String × Json) :=
  let d : List (String × Json) :=
    [ ("t", .num (pyRound3 e.timestamp))
    , ("type", .str "event")
    , ("event", .str e.event_type)
    , ("object", e.object_id)
    , ("class", e.class_name) ]
  let d := d ++ (match e.object_name with
    | some n => if n.truthy then [("name", n)] else []
    | none => [])
  dictUpdate d e.detail

/-- One buffered item: a signal/lifecycle event or a captured input event. -/
inductive RecItem where
  | sig (e : RecordedEvent)
  | input (e : RecordedInputEvent)

/-- Serialization of one buffered item, as used by stop(). -/
def RecItem.to_dict : RecItem → List (String × Json)
  | .sig e => e.to_dict
  | .input e => e.to_dict

/-- Embeds the mutable state of EventRecorder (event_recorder.py lines
111-117). -/
structure EventRecorder where
  recording : Bool := false
  start_time : ℚ := 0
  events : List RecItem := []
  subscriptions : List Json := []
  include_lifecycle : Bool := true
  capture_events : Bool := false

/-- Embeds EventRecorder._handle_notification (event_recorder.py lines
241-293), running at monotonic time now with a params dict.  Returns none
when the Python code would raise (startswith on a non-string event type, or
a get on a non-dict pos), which no caller catches.  objectDestroyed
notifications bind a local and append nothing; an unknown method is a
no-op. -/
def EventRecorder.handle_notification (st : EventRecorder) (now : ℚ)
    (method : String) (params : List (String × Json)) :
    Option EventRecorder :=
  if !st.recording then some st
  else
    let timestamp := now - st.start_time
    if method = "qtmcp.signalEmitted" then
      some { st with events := st.events ++ [.sig
        { timestamp := timestamp
        , event_type := "signal"
        , object_id := (dlookup params "objectId").getD (.str "")
        , object_name := pyOrNone (dlookup params "objectName")
        , detail := (dlookup params "signal").getD (.str "")
        , arguments := ((dlookup params "arguments").orElse
            (fun _ => dlookup params "args")).getD (.arr []) }] }
    else if method = "qtmcp.objectCreated" ∧ st.include_lifecycle then
      some { st with events := st.events ++ [.sig
        { timestamp := timestamp
        , event_type := "object_created"
        , object_id := (dlookup params "objectId").getD (.str "")
        , object_name := pyOrNone (dlookup params "objectName")
        , detail := (dlookup params "className").getD (.str "") }] }
    else if method = "qtmcp.objectDestroyed" ∧ st.include_lifecycle then
      some st
    else if method = "qtmcp.eventCaptured" then
      match (dlookup params "type").getD (.str "") with
      | .str s =>
        let detail? : Option (List (String × Json)) :=
          if s.startsWith "Mouse" then
            let pos := (dlookup params "pos").getD (.obj [])
            if pos.isObj then
              some [ ("button", (dlookup params "button").getD (.str ""))
                   , ("pos", .arr [ (pos.get? "x").getD (.num 0)
                                  , (pos.get? "y").getD (.num 0) ]) ]
            else none
          else if s.startsWith "Key" then
            some [ ("key", (dlookup params "key").getD (.num 0))
                 , ("text", (dlookup params "text").getD (.str ""))
                 , ("modifiers", (dlookup params "modifiers").getD (.str "")) ]
          else if s.startsWith "Focus" then
            some [ ("reason", (dlookup params "reason").getD (.str "")) ]
          else some []
        match detail? with
        | some detail =>
          some { st with events := st.events ++ [.input
            { timestamp := timestamp
            , event_type := s
            , object_id := (dlookup params "objectId").getD (.str "")
            , object_name := pyOrNone (dlookup params "objectName")
            , class_name := (dlookup params "className").getD (.str "")
            , detail := detail }] }
        | none => none
      | _ => none
    else some st

/-- Result dict of EventRecorder.stop (event_recorder.py lines 196-239). -/
structure StopResult where
  recording : Bool
  duration : ℚ
  event_count : Nat
  events : List (List (String × Json))

/-- Embeds the state effect and return value of EventRecorder.stop
(event_recorder.py lines 196-239) at monotonic time now.  When idle it
returns the explicit not-recording result; otherwise it serializes the
buffered events, clears the buffer and leaves the Idle state.  The RPC
cleanup calls it makes are best-effort network effects with no effect on
this state. -/
def EventRecorder.stop (st : EventRecorder) (now : ℚ) :
    EventRecorder × StopResult :=
  if !st.recording then
    (st, { recording := false, duration := 0, event_count := 0, events := [] })
  else
    let duration := pyRound3 (now - st.start_time)
    let events := st.events.map RecItem.to_dict
    ( { st with recording := false, events := [], subscriptions := [] }
    , { recording := false, duration := duration
      , event_count := events.length, events := events } )

/-- A subscribe RPC outcome seen by EventRecorder._subscribe_target: a
returned JSON value, or a raised exception. -/
inductive RpcReply where
  | ok (result : Json)
  | exn

/-- Embeds the body of the per-signal loop of
EventRecorder._subscribe_target (event_recorder.py lines 324-339), acting
on the (tracked subscription list, counter) pair: a raised call is caught
and skipped; otherwise the possibly nested result field is unwrapped, and a
truthy subscriptionId is appended and counted.  A get on a non-dict raises
inside the same try and is likewise caught and skipped. -/
def subscribeStep (acc : List Json × Nat) (reply : RpcReply) :
    List Json × Nat :=
  match reply with
  | .exn => acc
  | .ok result =>
    match result with
    | .obj fields =>
      match (dlookup fields "result").getD (.obj fields) with
      | .obj ifs =>
        match dlookup ifs "subscriptionId" with
        | some sid => if sid.truthy then (acc.1 ++ [sid], acc.2 + 1) else acc
        | none => acc
      | _ => acc
    | _ => acc

/-- The whole per-signal loop over the sequence of subscribe outcomes. -/
def subscribeLoop (subs : List Json) (count : Nat)
    (replies : List RpcReply) : List Json × Nat :=
  replies.foldl subscribeStep (subs, count)

/-- The subscription id a single subscribe outcome contributes, if any: the
truthy subscriptionId of the unwrapped result. -/
def subIdOf (reply : RpcReply) : Option Json :=
  match reply with
  | .exn => none
  | .ok result =>
    match result with
    | .obj fields =>
      match (dlookup fields "result").getD (.obj fields) with
      | .obj ifs =>
        match dlookup ifs "subscriptionId" with
        | some sid => if sid.truthy then some sid else none
        | none => none
      | _ => none
    | _ => none

/-! ## Readiness waiter (server.py) -/

/-- Outcome of the connect-retry phase of _wait_for_probe_ready (server.py
lines 151-192): deadline exceeded, launched process already dead (with its
exit code and the bounded stderr text appended to the message), or
connected at a given attempt number.  fuelOut is reached only when the
iteration bound is exhausted. -/
inductive WaitOutcome where
  | timedOut (timeout : ℚ)
  | procDead (code : Int) (stderr_tail : List Char)
  | connected (attempt : Nat)
  | fuelOut

/-- The environment the retry loop observes: the event-loop clock at the
top of each iteration, the process returncode observed at each iteration,
the decoded stderr text, and whether the connect attempt of each iteration
succeeds. -/
structure WaitEnv where
  times : Nat → ℚ
  procExit : Nat → Option Int
  stderrText : List Char
  connectOk : Nat → Bool

/-- Embeds the Phase-2 while-loop of _wait_for_probe_ready (server.py lines
157-192), iteration k carrying the current back-off delay.  Each iteration:
deadline check first (timed-out error), then the dead-process check (exit
code plus stderr text truncated to 500 characters), then the connect
attempt (success returns the attempt number); on failure it sleeps
min(delay, remaining) — time advance is part of env.times — and doubles the
delay up to the 4-second cap.  The returned list holds the sleep durations
of the failed attempts, in order. -/
def waitLoop (env : WaitEnv) (deadline timeout : ℚ) :
    ℚ → Nat → Nat → WaitOutcome × List ℚ
  | _, _, 0 => (.fuelOut, [])
  | delay, k, fuel + 1 =>
    let remaining := deadline - env.times k
    if remaining ≤ 0 then (.timedOut timeout, [])
    else
      match env.procExit k with
      | some rc => (.procDead rc (env.stderrText.take 500), [])
      | none =>
        if env.connectOk k then (.connected (k + 1), [])
        else
          let r := waitLoop env deadline timeout (min (delay * 2) 4) (k + 1) fuel
          (r.1, min delay remaining :: r.2)

/-- Embeds the entry into Phase 2 of _wait_for_probe_ready (server.py lines
151-156): deadline = start + timeout, initial delay 0.5s, first iteration
0.  Phase 1 (the optional discovery wait) only consumes time, which is
absorbed into env.times. -/
def wait_for_probe_ready (env : WaitEnv) (start timeout : ℚ) (fuel : Nat) :
    WaitOutcome × List ℚ :=
  waitLoop env (start + timeout) timeout (1/2) 0 fuel

/-! ## Shared helper lemmas -/

/-- A JSON id value equals at most one integer pending key. -/
theorem idMatches_unique {j : Json} {k k' : Nat}
    (h : idMatches j k = true) (h' : idMatches j k' = true) : k = k' := by
  cases j with
  | num q =>
    simp only [idMatches, decide_eq_true_eq] at h h'
    exact_mod_cast h ▸ h'
  | bool b =>
    simp only [idMatches, decide_eq_true_eq] at h h'
    exact_mod_cast h ▸ h'
  | null => simp [idMatches] at h
  | str s => simp [idMatches] at h
  | arr xs => simp [idMatches] at h
  | obj fs => simp [idMatches] at h

/-- A JSON id value that matches a pending key is not null. -/
theorem idMatches_not_null {j : Json} {k : Nat}
    (h : idMatches j k = true) : j.isNull = false := by
  cases j <;> simp_all [idMatches, Json.isNull]

/-- In an association list with no duplicate keys, two members with the
same key are the same entry. -/
theorem eq_of_mem_nodup_keys {α β : Type} {r : List (α × β)}
    (h : (r.map Prod.fst).Nodup) {p q : α × β}
    (hp : p ∈ r) (hq : q ∈ r) (hk : p.1 = q.1) : p = q := by
  induction r with
  | nil => cases hp
  | cons a t ih =>
    have h' : a.1 ∉ t.map Prod.fst ∧ (t.map Prod.fst).Nodup := by
      simpa using h
    rcases List.mem_cons.1 hp with rfl | hp'
    · rcases List.mem_cons.1 hq with rfl | hq'
      · rfl
      · have hmem := List.mem_map_of_mem Prod.fst hq'
        rw [← hk] at hmem
        exact absurd hmem h'.1
    · rcases List.mem_cons.1 hq with rfl | hq'
      · have hmem := List.mem_map_of_mem Prod.fst hp'
        rw [hk] at hmem
        exact absurd hmem h'.1
      · exact ih h'.2 hp' hq'

/-- find? with a key-determined predicate on a nodup-key association list
returns the unique entry with that key. -/
theorem find_key_of_nodup {α β : Type} {l : List (α × β)} {k : α} {b : β}
    (hnd : (l.map Prod.fst).Nodup) (hm : (k, b) ∈ l)
    {pred : α × β → Bool} (hp : ∀ p, pred p = true ↔ p.1 = k) :
    l.find? pred = some (k, b) := by
  induction l with
  | nil => cases hm
  | cons a t ih =>
    have hnd' : (t.map Prod.fst).Nodup := by
      simp only [List.map_cons, List.nodup_cons] at hnd
      exact hnd.2
    by_cases ha : pred a = true
    · have haeq : a = (k, b) :=
        eq_of_mem_nodup_keys hnd (List.mem_cons_self a t) hm ((hp a).1 ha)
      rw [List.find?_cons_of_pos _ ha, haeq]
    · have hat : (k, b) ∈ t := by
        rcases List.mem_cons.1 hm with heq | h
        · exact absurd ((hp (k, b)).2 rfl) (heq ▸ ha)
        · exact h
      rw [List.find?_cons_of_neg _ ha]
      exact ih hnd' hat

/-- eraseP with a key-determined predicate on a nodup-key association list
is the same as filtering that key out. -/
theorem eraseP_eq_filter_of_nodup {α β : Type} {l : List (α × β)} {k : α}
    (hnd : (l.map Prod.fst).Nodup)
    {pred : α × β → Bool} (hp : ∀ p, pred p = true ↔ p.1 = k) :
    l.eraseP pred = l.filter (fun p => !pred p) := by
  induction l with
  | nil => rfl
  | cons a t ih =>
    have h' : a.1 ∉ t.map Prod.fst ∧ (t.map Prod.fst).Nodup := by
      simpa using hnd
    by_cases ha : pred a = true
    · rw [List.eraseP_cons_of_pos ha, List.filter_cons_of_neg (by simp [ha])]
      have hall : ∀ p ∈ t, (!pred p) = true := by
        intro p hpt
        have hk : p.1 ≠ k := by
          intro hk
          have hmem := List.mem_map_of_mem Prod.fst hpt
          rw [hk, ← (hp a).1 ha] at hmem
          exact h'.1 hmem
        have hf : pred p = false := by
          rw [← Bool.not_eq_true]
          intro hc
          exact hk ((hp p).1 hc)
        simp [hf]
      exact (List.filter_eq_self.2 hall).symm
    · rw [List.eraseP_cons_of_neg ha, List.filter_cons_of_pos (by simp [ha])]
      rw [ih h'.2]

/-! ## C1 -/

/-- C1: evaluation of the code at the failing input.  The claim — backed by
the repository's own tests and by EventRecorder.start, which both call
probe.on_notification — says the connection installs a notification
callback which the receive loop invokes for every inbound message with no
matching pending id.  The source ProbeConnection has no on_notification
operation at all, and its receive loop drops every such message: for any
connection state, feeding the notification frame
obj [jsonrpc, method qtmcp.signalEmitted, params] into the receive-loop
step leaves the state unchanged and produces no effect whatsoever (the
LoopEffect type of the embedded loop has no callback-invocation case
because the source has no such code path). -/
theorem C1_recv_loop_drops_notifications (st : ConnState) :
    ProbeConnection.recv_loop_step st (some (Json.obj
      [ ("jsonrpc", .str "2.0")
      , ("method", .str "qtmcp.signalEmitted")
      , ("params", .obj []) ])) = (st, .ignored) := rfl

/-! ## C2 -/

/-- C2 (amended): a call invoked while the connection state is not
connected (or the stream is gone) fails immediately with the ProbeError
"Not connected to probe" and nothing is sent — the notConnected outcome
carries no request, so no network send happens.  The amendment: this
failure is of the same exception type, ProbeError, as the error raised
when the remote peer returns a JSON-RPC error object; it is distinguishable
only by its message text, not by its type. -/
theorem C2_call_not_connected (st : ConnState) (m : String) (p : Option Json)
    (h : st.connected = false ∨ st.ws = false) :
    ProbeConnection.call st m p =
      .notConnected { message := .str "Not connected to probe"
                    , code := .num (-1), data := .null } := by
  unfold ProbeConnection.call
  rcases h with h | h <;> simp [h]

/-- C2 witness: the amended theorem applied to the freshly initialized
(not yet connected) connection state. -/
theorem C2_call_not_connected_witness :
    ProbeConnection.call ProbeConnection.init "qt.ping" Option.none =
      .notConnected { message := .str "Not connected to probe"
                    , code := .num (-1), data := .null } :=
  C2_call_not_connected ProbeConnection.init "qt.ping" Option.none
    (Or.inl rfl)

/-- C2 counterexample: the claim's requirement that the not-connected
failure be "of a type distinguishable from the error raised when the
remote peer returns a JSON-RPC error object" is false.  At the concrete
input below, the error the disconnected call raises and the error built
from the remote JSON-RPC error object with message "Not connected to
probe" are the very same ProbeError value — same type, same message, same
code -1, same null data. -/
theorem C2_counterexample :
    ProbeConnection.call ProbeConnection.init "qt.ping" Option.none =
      .notConnected { message := .str "Not connected to probe"
                    , code := .num (-1), data := .null } ∧
    ProbeError.from_jsonrpc
        (.obj [("message", .str "Not connected to probe")]) =
      some { message := .str "Not connected to probe"
           , code := .num (-1), data := .null } :=
  ⟨rfl, rfl⟩

/-! ## C4 -/

/-- On a live connection, a run of back-to-back calls assigns the
consecutive ids starting at the current next_id. -/
theorem callSeq_ids (ms : List (String × Option Json)) :
    ∀ st : ConnState, st.connected = true → st.ws = true →
      (ProbeConnection.callSeq st ms).2 =
        List.range' st.next_id ms.length := by
  induction ms with
  | nil => intro st _ _; rfl
  | cons m rest ih =>
    intro st h1 h2
    obtain ⟨mth, p⟩ := m
    simp only [ProbeConnection.callSeq, ProbeConnection.call, h1, h2,
      Bool.not_true, Bool.or_self, Bool.false_eq_true, if_false,
      List.length_cons, List.range']
    exact congrArg (List.cons st.next_id) (ih _ rfl rfl)

/-- The receive loop never touches the id counter. -/
theorem recv_loop_step_next_id (st : ConnState) (raw : Option Json) :
    ((ProbeConnection.recv_loop_step st raw).1).next_id = st.next_id := by
  unfold ProbeConnection.recv_loop_step
  rcases raw with _ | msg
  · rfl
  · dsimp only
    repeat' split
    all_goals rfl

/-- C4: on one freshly connected connection, a sequence of N calls issued
back to back is assigned exactly the ids 1..N in invocation order (the
list range' 1 N), each id occurring exactly once (the list has no
duplicates); and the id counter is never reset while the connection object
lives — neither the receive loop nor disconnect changes next_id, and each
call only increments it. -/
theorem C4_request_ids (ms : List (String × Option Json)) :
    (ProbeConnection.callSeq
        (ProbeConnection.connect ProbeConnection.init) ms).2 =
      List.range' 1 ms.length ∧
    (List.range' 1 ms.length).Nodup ∧
    (∀ st raw,
      ((ProbeConnection.recv_loop_step st raw).1).next_id = st.next_id) ∧
    (∀ st, (ProbeConnection.disconnect st).next_id = st.next_id) ∧
    (∀ st m p st' req i, ProbeConnection.call st m p = .sent st' req i →
      i = st.next_id ∧ st'.next_id = st.next_id + 1) := by
  refine ⟨callSeq_ids ms _ rfl rfl, ?_,
    recv_loop_step_next_id, fun _ => rfl, ?_⟩
  · exact List.nodup_range' _ _ _ Nat.one_pos
  intro st m p st' req i h
  unfold ProbeConnection.call at h
  by_cases hc : (!st.connected || !st.ws) = true
  · rw [if_pos hc] at h; cases h
  · rw [if_neg hc] at h
    cases h
    exact ⟨rfl, rfl⟩

/-- C4 witness: two back-to-back calls on a fresh connection get ids 1
and 2. -/
theorem C4_request_ids_witness :
    (ProbeConnection.callSeq (ProbeConnection.connect ProbeConnection.init)
      [("qt.ping", Option.none), ("qt.version", Option.none)]).2
      = [1, 2] := by
  have h := (C4_request_ids
    [("qt.ping", Option.none), ("qt.version", Option.none)]).1
  rw [h]
  rfl

/-! ## C10 -/

/-- One subscribe-loop iteration, characterized by the subscription id the
reply contributes. -/
theorem subscribeStep_eq (acc : List Json × Nat) (r : RpcReply) :
    subscribeStep acc r = match subIdOf r with
      | some sid => (acc.1 ++ [sid], acc.2 + 1)
      | none => acc := by
  cases r with
  | exn => rfl
  | ok result =>
    cases result with
    | obj fields =>
      unfold subscribeStep subIdOf
      dsimp only
      cases (dlookup fields "result").getD (Json.obj fields) with
      | obj ifs =>
        dsimp only
        cases dlookup ifs "subscriptionId" with
        | some sid =>
          by_cases h : sid.truthy = true <;> simp [h]
        | none => rfl
      | null => rfl
      | bool b => rfl
      | num q => rfl
      | str s => rfl
      | arr xs => rfl
    | null => rfl
    | bool b => rfl
    | num q => rfl
    | str s => rfl
    | arr xs => rfl

/-- The per-signal subscribe loop collects exactly the contributed ids. -/
theorem subscribeLoop_eq (replies : List RpcReply) :
    ∀ subs count, subscribeLoop subs count replies =
      (subs ++ replies.filterMap subIdOf,
       count + (replies.filterMap subIdOf).length) := by
  induction replies with
  | nil => intro subs count; simp [subscribeLoop]
  | cons r rest ih =>
    intro subs count
    simp only [subscribeLoop, List.foldl_cons] at ih ⊢
    rw [subscribeStep_eq]
    cases h : subIdOf r with
    | none => simp [List.filterMap_cons, h, ih subs count]
    | some sid =>
      simp only [List.filterMap_cons, h]
      rw [ih (subs ++ [sid]) (count + 1)]
      simp [List.append_assoc, Nat.add_assoc, Nat.add_comm 1]

/-- C10: during start(), the per-(object, signal) subscribe loop appends a
subscription id to the tracked list and increments the counter exactly
when the reply — after unwrapping a possibly nested result field — carries
a truthy subscriptionId (subIdOf); a successful reply without one changes
nothing, a raised subscribe call is skipped, and no outcome aborts the
remaining pairs: the whole loop equals the initial state extended by
exactly the contributed ids, in order, with the counter incremented once
per id. -/
theorem C10_subscribe_accounting (replies : List RpcReply)
    (subs : List Json) (count : Nat) :
    subscribeLoop subs count replies =
      (subs ++ replies.filterMap subIdOf,
       count + (replies.filterMap subIdOf).length) ∧
    (∀ acc : List Json × Nat, subscribeStep acc .exn = acc) ∧
    (∀ acc : List Json × Nat, ∀ r sid, subIdOf r = some sid →
      subscribeStep acc r = (acc.1 ++ [sid], acc.2 + 1)) ∧
    (∀ acc : List Json × Nat, ∀ r, subIdOf r = none →
      subscribeStep acc r = acc) := by
  refine ⟨subscribeLoop_eq replies subs count, fun _ => rfl, ?_, ?_⟩
  · intro acc r sid h
    rw [subscribeStep_eq, h]
  · intro acc r h
    rw [subscribeStep_eq, h]

/-- C10 witness: the accounting theorem applied to a concrete run — a
wrapped truthy id, a raised call, a success with no id, a falsy id and a
direct truthy id give exactly two tracked subscriptions. -/
theorem C10_subscribe_accounting_witness :
    subscribeLoop [] 0
      [ .ok (.obj [("meta", .obj []),
          ("result", .obj [("subscriptionId", .str "sub_0")])])
      , .exn
      , .ok (.obj [("status", .str "ok")])
      , .ok (.obj [("subscriptionId", .str "")])
      , .ok (.obj [("subscriptionId", .str "sub_1")]) ] =
      ([.str "sub_0", .str "sub_1"], 2) := by
  have h := (C10_subscribe_accounting
    [ .ok (.obj [("meta", .obj []),
        ("result", .obj [("subscriptionId", .str "sub_0")])])
    , .exn
    , .ok (.obj [("status", .str "ok")])
    , .ok (.obj [("subscriptionId", .str "")])
    , .ok (.obj [("subscriptionId", .str "sub_1")]) ] [] 0).1
  rw [h]
  rfl

/-! ## C7 -/

/-- C7: within a recording session, an object_destroyed notification never
adds an event — whatever the lifecycle-recording setting, the handler
returns the state unchanged — while an object_created notification appends
exactly one object_created event when lifecycle recording is enabled for
the session and none when it is disabled; and the event list stop()
returns is exactly the serialization of the buffered events, so destroyed
notifications never appear in it. -/
theorem C7_lifecycle_filtering (st : EventRecorder) (h : st.recording = true)
    (now : ℚ) (params : List (String × Json)) :
    EventRecorder.handle_notification st now "qtmcp.objectDestroyed" params
      = some st ∧
    (st.include_lifecycle = true →
      EventRecorder.handle_notification st now "qtmcp.objectCreated" params
        = some { st with events := st.events ++ [.sig
            { timestamp := now - st.start_time
            , event_type := "object_created"
            , object_id := (dlookup params "objectId").getD (.str "")
            , object_name := pyOrNone (dlookup params "objectName")
            , detail := (dlookup params "className").getD (.str "") }] }) ∧
    (st.include_lifecycle = false →
      EventRecorder.handle_notification st now "qtmcp.objectCreated" params
        = some st) ∧
    (∀ t, ((EventRecorder.stop st t).2).events
        = st.events.map RecItem.to_dict) := by
  refine ⟨?_, ?_, ?_, ?_⟩
  · by_cases hl : st.include_lifecycle = true <;>
      simp [EventRecorder.handle_notification, h, hl]
  · intro hl
    simp [EventRecorder.handle_notification, h, hl]
  · intro hl
    simp [EventRecorder.handle_notification, h, hl]
  · intro t
    simp [EventRecorder.stop, h]

/-- C7 witness: the filtering theorem applied to a fresh recording state
(lifecycle enabled) and a concrete params dict. -/
theorem C7_lifecycle_filtering_witness :
    EventRecorder.handle_notification { recording := true } 2
        "qtmcp.objectDestroyed" [("objectId", .str "obj")]
      = some { recording := true } ∧
    EventRecorder.handle_notification { recording := true } 2
        "qtmcp.objectCreated" [("objectId", .str "obj")]
      = some { (({ recording := true } : EventRecorder)) with
          events := [.sig
            { timestamp := 2 - 0
            , event_type := "object_created"
            , object_id := .str "obj"
            , object_name := none
            , detail := .str "" }] } := by
  have h := C7_lifecycle_filtering { recording := true } rfl 2
    [("objectId", .str "obj")]
  exact ⟨h.1, by simpa [dlookup, pyOrNone] using h.2.1 rfl⟩

/-! ## C5 and C6: receive-loop step characterization -/

/-- A dict message whose id matches no pending entry is dropped: no state
change, no effect (the unmatched-response and notification branch). -/
theorem recv_loop_step_ignored {st : ConnState} {msg : Json}
    (hobj : msg.isObj = true)
    (hany : (st.pending.any fun p => idMatches (msg.pyGet "id") p.1) = false) :
    ProbeConnection.recv_loop_step st (some msg) = (st, .ignored) := by
  unfold ProbeConnection.recv_loop_step
  dsimp only
  rw [hobj, hany]
  simp

/-- A dict message whose id matches the pending, not-yet-done entry i pops
that entry and resolves it according to the error/result members. -/
theorem recv_loop_step_found {st : ConnState} {msg : Json} {i : Nat}
    (hnd : (st.pending.map Prod.fst).Nodup)
    (hmem : (i, false) ∈ st.pending)
    (hobj : msg.isObj = true)
    (hid : idMatches (msg.pyGet "id") i = true) :
    ProbeConnection.recv_loop_step st (some msg) =
      ({ st with pending :=
          st.pending.eraseP (fun p => idMatches (msg.pyGet "id") p.1) },
       match msg.get? "error" with
       | some e =>
         match ProbeError.from_jsonrpc e with
         | some pe => .resolve i (.err pe)
         | Option.none => .crash
       | Option.none =>
         .resolve i (.ok ((msg.get? "result").getD (.obj [])))) := by
  have hfind : st.pending.find? (fun p => idMatches (msg.pyGet "id") p.1)
      = some (i, false) := by
    refine find_key_of_nodup hnd hmem (fun p => ⟨fun hp => ?_, fun hp => ?_⟩)
    · exact idMatches_unique hp hid
    · exact (show idMatches (msg.pyGet "id") p.1 = true by rw [hp]; exact hid)
  have hnull : (msg.pyGet "id").isNull = false := idMatches_not_null hid
  have hany : (st.pending.any fun p => idMatches (msg.pyGet "id") p.1)
      = true := List.any_eq_true.2 ⟨(i, false), hmem, hid⟩
  unfold ProbeConnection.recv_loop_step
  dsimp only
  rw [hobj, hnull, hany, hfind]
  simp only [Bool.not_true, Bool.or_false, Bool.false_eq_true, if_false]
  cases msg.get? "error" with
  | some e =>
    dsimp only
    cases ProbeError.from_jsonrpc e <;> rfl
  | none => rfl

/-- C5: at-most-once resolution.  For a dict message whose id matches the
registered, not-yet-resolved request i (with the pending keys unique, as
they are for ids handed out by call): the step removes i from the pending
set while every other pending entry is untouched; only i can be resolved
by it; any later dict message reusing id i is dropped with no state change
and no effect; and a dict message whose id matches no pending entry at all
is likewise dropped with no state change and no effect. -/
theorem C5_resolved_at_most_once (st : ConnState) (msg : Json) (i : Nat)
    (hnd : (st.pending.map Prod.fst).Nodup)
    (hmem : (i, false) ∈ st.pending)
    (hobj : msg.isObj = true)
    (hid : idMatches (msg.pyGet "id") i = true) :
    i ∉ ((ProbeConnection.recv_loop_step st (some msg)).1).pending.map
        Prod.fst ∧
    (∀ p ∈ st.pending, p.1 ≠ i →
      p ∈ ((ProbeConnection.recv_loop_step st (some msg)).1).pending) ∧
    (∀ j out, (ProbeConnection.recv_loop_step st (some msg)).2
        = .resolve j out → j = i) ∧
    (∀ msg2 : Json, msg2.isObj = true →
      idMatches (msg2.pyGet "id") i = true →
      ProbeConnection.recv_loop_step
          ((ProbeConnection.recv_loop_step st (some msg)).1) (some msg2)
        = ((ProbeConnection.recv_loop_step st (some msg)).1, .ignored)) ∧
    (∀ msg3 : Json, msg3.isObj = true →
      (∀ p ∈ st.pending, idMatches (msg3.pyGet "id") p.1 = false) →
      ProbeConnection.recv_loop_step st (some msg3) = (st, .ignored)) := by
  have hp : ∀ p : Nat × Bool,
      (fun p => idMatches (msg.pyGet "id") p.1) p = true ↔ p.1 = i := by
    intro p
    refine ⟨fun hp => idMatches_unique hp hid, fun hp => ?_⟩
    exact (show idMatches (msg.pyGet "id") p.1 = true by rw [hp]; exact hid)
  have hstep := recv_loop_step_found hnd hmem hobj hid
  have hpend : ((ProbeConnection.recv_loop_step st (some msg)).1).pending
      = st.pending.filter
          (fun p => !(idMatches (msg.pyGet "id") p.1)) := by
    rw [hstep]
    exact eraseP_eq_filter_of_nodup hnd hp
  have hnotin : i ∉ ((ProbeConnection.recv_loop_step st
      (some msg)).1).pending.map Prod.fst := by
    rw [hpend]
    intro hcon
    obtain ⟨q, hq, hqi⟩ := List.mem_map.1 hcon
    have hqf := (List.mem_filter.1 hq).2
    have : idMatches (msg.pyGet "id") q.1 = true := (hp q).2 hqi
    simp [this] at hqf
  refine ⟨hnotin, ?_, ?_, ?_, ?_⟩
  · intro p hpmem hpne
    rw [hpend]
    refine List.mem_filter.2 ⟨hpmem, ?_⟩
    have : idMatches (msg.pyGet "id") p.1 = false := by
      rw [← Bool.not_eq_true]
      intro hc
      exact hpne ((hp p).1 hc)
    simp [this]
  · intro j out hres
    rw [hstep] at hres
    dsimp only at hres
    cases he : msg.get? "error" with
    | some e =>
      rw [he] at hres
      dsimp only at hres
      cases hpe : ProbeError.from_jsonrpc e with
      | some pe =>
        rw [hpe] at hres
        dsimp only at hres
        simp only [LoopEffect.resolve.injEq] at hres
        exact hres.1.symm
      | none =>
        rw [hpe] at hres
        dsimp only at hres
        cases hres
    | none =>
      rw [he] at hres
      dsimp only at hres
      simp only [LoopEffect.resolve.injEq] at hres
      exact hres.1.symm
  · intro msg2 hobj2 hid2
    refine recv_loop_step_ignored hobj2 ?_
    rw [← Bool.not_eq_true, List.any_eq_true]
    rintro ⟨q, hq, hq2⟩
    have hqi : q.1 = i := idMatches_unique hq2 hid2
    exact hnotin (hqi ▸ List.mem_map_of_mem Prod.fst hq)
  · intro msg3 hobj3 hnone
    refine recv_loop_step_ignored hobj3 ?_
    rw [← Bool.not_eq_true, List.any_eq_true]
    rintro ⟨q, hq, hq3⟩
    rw [hnone q hq] at hq3
    cases hq3

/-- C5 witness: the at-most-once theorem applied to a connection with
pending request 1 receiving the response obj [id 1, result obj []]. -/
theorem C5_resolved_at_most_once_witness :
    1 ∉ ((ProbeConnection.recv_loop_step
        { ws := true, next_id := 2, pending := [(1, false)], connected := true }
        (some (Json.obj [("id", .num 1), ("result", .obj [])]))).1).pending.map
        Prod.fst :=
  (C5_resolved_at_most_once
    { ws := true, next_id := 2, pending := [(1, false)], connected := true }
    (Json.obj [("id", .num 1), ("result", .obj [])]) 1
    (by decide) (by decide) rfl (by decide)).1

/-- C6: for a pending request i and a dict response whose id matches it:
a response with an error member that is an object resolves the request
with a ProbeError exposing exactly that object's code and message (and
data), defaulting to message "Unknown probe error" and code -1 when those
members are absent; a response without an error member resolves the
request with its result member X unchanged, defaulting to an empty object
when the result member is absent.  (call() returns the future's value —
the ok payload — and raises the ProbeError the future is failed with.) -/
theorem C6_result_and_error_resolution (st : ConnState) (msg : Json)
    (i : Nat)
    (hnd : (st.pending.map Prod.fst).Nodup)
    (hmem : (i, false) ∈ st.pending)
    (hobj : msg.isObj = true)
    (hid : idMatches (msg.pyGet "id") i = true) :
    (∀ e, msg.get? "error" = some e → e.isObj = true →
      (ProbeConnection.recv_loop_step st (some msg)).2 =
        .resolve i (.err
          { message := (e.get? "message").getD (.str "Unknown probe error")
          , code := (e.get? "code").getD (.num (-1))
          , data := e.pyGet "data" })) ∧
    (∀ X, msg.get? "error" = Option.none → msg.get? "result" = some X →
      (ProbeConnection.recv_loop_step st (some msg)).2 = .resolve i (.ok X)) ∧
    (msg.get? "error" = Option.none → msg.get? "result" = Option.none →
      (ProbeConnection.recv_loop_step st (some msg)).2
        = .resolve i (.ok (.obj []))) := by
  have hstep := recv_loop_step_found hnd hmem hobj hid
  refine ⟨?_, ?_, ?_⟩
  · intro e he heobj
    rw [hstep]
    dsimp only
    rw [he]
    dsimp only
    rw [show ProbeError.from_jsonrpc e
        = some { message := (e.get? "message").getD (.str "Unknown probe error")
               , code := (e.get? "code").getD (.num (-1))
               , data := e.pyGet "data" } from by
      unfold ProbeError.from_jsonrpc
      rw [heobj]
      simp]
  · intro X he hr
    rw [hstep]
    dsimp only
    rw [he]
    dsimp only
    rw [hr]
    rfl
  · intro he hr
    rw [hstep]
    dsimp only
    rw [he]
    dsimp only
    rw [hr]
    rfl

/-- C6 witness: an error response exposing code -32601 and its message,
applied at a connection with pending request 1. -/
theorem C6_result_and_error_resolution_witness :
    (ProbeConnection.recv_loop_step
      { ws := true, next_id := 2, pending := [(1, false)], connected := true }
      (some (Json.obj [("id", .num 1), ("error", .obj
        [("code", .num (-32601)), ("message", .str "Method not found")])]))).2
    = .resolve 1 (.err
        { message := .str "Method not found"
        , code := .num (-32601)
        , data := .null }) := by
  have h := (C6_result_and_error_resolution
    { ws := true, next_id := 2, pending := [(1, false)], connected := true }
    (Json.obj [("id", .num 1), ("error", .obj
      [("code", .num (-32601)), ("message", .str "Method not found")])]) 1
    (by decide) (by decide) rfl (by decide)).1
    (.obj [("code", .num (-32601)), ("message", .str "Method not found")])
    rfl rfl
  simpa [Json.get?, Json.pyGet, dlookup] using h

/-! ## C3: discovery registry -/

/-- Number of entries carrying a given key. -/
def countKey {β : Type} (d : List (String × β)) (k : String) : Nat :=
  (d.filter (fun p => p.1 = k)).length

/-- A key not among the keys has no entries. -/
theorem countKey_eq_zero {β : Type} {d : List (String × β)} {k : String}
    (h : k ∉ d.map Prod.fst) : countKey d k = 0 := by
  induction d with
  | nil => rfl
  | cons a t ih =>
    simp only [List.map_cons, List.mem_cons, not_or] at h
    have ha : (decide (a.1 = k)) = false := by
      simp only [decide_eq_false_iff_not]
      exact fun hc => h.1 hc.symm
    simp only [countKey, List.filter_cons, ha]
    exact ih h.2

/-- With unique keys, a key has exactly one entry when present. -/
theorem countKey_nodup {β : Type} {d : List (String × β)}
    (hnd : (d.map Prod.fst).Nodup) (k : String) :
    countKey d k = if k ∈ d.map Prod.fst then 1 else 0 := by
  induction d with
  | nil => rfl
  | cons a t ih =>
    have h' : a.1 ∉ t.map Prod.fst ∧ (t.map Prod.fst).Nodup := by
      simpa using hnd
    by_cases hk : a.1 = k
    · have hkt : k ∉ t.map Prod.fst := by rw [← hk]; exact h'.1
      have hc : countKey (a :: t) k = countKey t k + 1 := by
        simp [countKey, List.filter_cons, hk]
      have hmem : k ∈ (a :: t).map Prod.fst := by
        simp [List.mem_cons, ← hk]
      rw [hc, countKey_eq_zero hkt, if_pos hmem]
    · have hc : countKey (a :: t) k = countKey t k := by
        simp [countKey, List.filter_cons, hk]
      have hne : k ≠ a.1 := fun hc' => hk hc'.symm
      rw [hc, ih h'.2]
      by_cases hm : k ∈ t.map Prod.fst
      · simp [List.mem_cons, hm, hne]
      · simp [List.mem_cons, hm, hne]

/-- Replacing an existing key's entries makes the key map to the new
value. -/
theorem dlookup_map_replace {β : Type} {d : List (String × β)} {k : String}
    (v : β) (h : (d.any fun p => p.1 = k) = true) :
    dlookup (d.map fun p => if p.1 = k then (k, v) else p) k = some v := by
  induction d with
  | nil => simp at h
  | cons a t ih =>
    obtain ⟨ak, av⟩ := a
    by_cases hk : ak = k
    · have hhead : (if ak = k then (k, v) else (ak, av)) = (k, v) := by
        simp [hk]
      simp only [List.map_cons]
      rw [hhead]
      simp [dlookup]
    · have hhead : (if ak = k then (k, v) else (ak, av)) = (ak, av) := by
        simp [hk]
      simp only [List.any_cons, Bool.or_eq_true, decide_eq_true_eq] at h
      rcases h with h | h
      · exact absurd h hk
      · simp only [List.map_cons]
        rw [hhead]
        simp only [dlookup, if_neg hk]
        exact ih h

/-- Appending a fresh key makes it map to the new value. -/
theorem dlookup_append_fresh {β : Type} {d : List (String × β)}
    {k : String} (v : β) (h : (d.any fun p => p.1 = k) = false) :
    dlookup (d ++ [(k, v)]) k = some v := by
  induction d with
  | nil => simp [dlookup]
  | cons a t ih =>
    obtain ⟨ak, av⟩ := a
    simp only [List.any_cons, Bool.or_eq_false_iff,
      decide_eq_false_iff_not] at h
    simp only [List.cons_append, dlookup, if_neg h.1]
    exact ih h.2

/-- Upsert makes the key's entry retrievable. -/
theorem dlookup_dset {β : Type} (d : List (String × β)) (k : String)
    (v : β) : dlookup (dset d k v) k = some v := by
  by_cases h : (d.any fun p => p.1 = k) = true
  · rw [dset, if_pos h]
    exact dlookup_map_replace v h
  · rw [dset, if_neg h]
    exact dlookup_append_fresh v (Bool.not_eq_true _ ▸ h)

/-- Upsert of an existing key does not grow the dict. -/
theorem dset_length_of_mem {β : Type} {d : List (String × β)} {k : String}
    (v : β) (h : k ∈ d.map Prod.fst) : (dset d k v).length = d.length := by
  have hany : d.any (fun p => p.1 = k) = true := by
    obtain ⟨p, hp, hpk⟩ := List.mem_map.1 h
    exact List.any_eq_true.2 ⟨p, hp, by simp [hpk]⟩
  simp [dset, hany]

/-- The keys of an upsert: unchanged when the key exists, else appended. -/
theorem dset_keys {β : Type} (d : List (String × β)) (k : String) (v : β) :
    (dset d k v).map Prod.fst =
      if d.any (fun p => p.1 = k) then d.map Prod.fst
      else d.map Prod.fst ++ [k] := by
  by_cases h : (d.any fun p => p.1 = k) = true
  · rw [dset, if_pos h, if_pos h, List.map_map]
    refine List.map_congr_left ?_
    intro p hp
    by_cases hk : p.1 = k
    · simp [Function.comp, hk]
    · simp [Function.comp, hk]
  · rw [dset, if_neg h, if_neg h]
    simp

/-- Upsert keeps keys unique. -/
theorem dset_nodup {β : Type} {d : List (String × β)} {k : String} (v : β)
    (hnd : (d.map Prod.fst).Nodup) :
    ((dset d k v).map Prod.fst).Nodup := by
  rw [dset_keys]
  split
  · exact hnd
  · rename_i h
    refine List.Nodup.append hnd (List.nodup_singleton k) ?_
    intro x hx hxk
    rw [List.mem_singleton] at hxk
    subst hxk
    obtain ⟨p, hp, hpk⟩ := List.mem_map.1 hx
    exact h (List.any_eq_true.2 ⟨p, hp, by simp [hpk]⟩)

/-- Upsert leaves exactly one entry with the key. -/
theorem countKey_dset {β : Type} {d : List (String × β)} (k : String)
    (v : β) (hnd : (d.map Prod.fst).Nodup) :
    countKey (dset d k v) k = 1 := by
  rw [countKey_nodup (dset_nodup v hnd), if_pos]
  rw [dset_keys]
  split
  · rename_i h
    obtain ⟨p, hp, hpk⟩ := List.any_eq_true.1 h
    simp only [decide_eq_true_eq] at hpk
    exact hpk ▸ List.mem_map_of_mem Prod.fst hp
  · simp

/-- Popping a key makes it unretrievable. -/
theorem dlookup_dpop {β : Type} (d : List (String × β)) (k : String) :
    dlookup (dpop d k) k = none := by
  induction d with
  | nil => rfl
  | cons a t ih =>
    by_cases hk : a.1 = k
    · simpa [dpop, List.filter_cons, hk] using ih
    · simpa [dpop, dlookup, List.filter_cons, hk] using ih

/-- Folding pops over a key list filters all those keys out. -/
theorem foldl_dpop {β : Type} (keys : List String) :
    ∀ d : List (String × β),
      keys.foldl (fun acc k => dpop acc k) d =
        d.filter (fun p => decide (p.1 ∉ keys)) := by
  induction keys with
  | nil =>
    intro d
    simp only [List.foldl_nil]
    refine (List.filter_eq_self.2 ?_).symm
    intro p _
    simp
  | cons k ks ih =>
    intro d
    simp only [List.foldl_cons]
    rw [ih (dpop d k)]
    unfold dpop
    rw [List.filter_filter]
    refine List.filter_congr ?_
    intro p _
    by_cases h1 : p.1 = k <;> by_cases h2 : p.1 ∈ ks <;>
      simp [h1, h2, List.mem_cons]

/-- C3: the discovery registry holds at most one probe per identity key.
An announce upsert keeps keys unique and leaves exactly one entry for its
key; two announces with the same identity key leave exactly one entry for
it, holding the probe built from the second message — all latest fields,
uptime included, with last_seen bumped to the second announce time — and
do not grow the registry on the second announce; a goodbye with that
identity key makes it unretrievable; and prune_stale removes exactly the
entries with now - last_seen > timeout (is_stale), keeping the rest
untouched and returning the removed keys, with no goodbye needed. -/
theorem C3_registry_identity (r : Registry) (m1 m2 : AnnounceMsg)
    (a : String) (t1 t2 now timeout : ℚ)
    (hnd : (r.map Prod.fst).Nodup)
    (hkey : (DiscoveryListener.announceProbe m1 a t1).key
          = (DiscoveryListener.announceProbe m2 a t2).key) :
    (((DiscoveryListener.on_announce r m1 a t1).map Prod.fst).Nodup ∧
      countKey (DiscoveryListener.on_announce r m1 a t1)
        (DiscoveryListener.announceProbe m1 a t1).key = 1) ∧
    (dlookup (DiscoveryListener.on_announce
        (DiscoveryListener.on_announce r m1 a t1) m2 a t2)
        (DiscoveryListener.announceProbe m2 a t2).key
      = some (DiscoveryListener.announceProbe m2 a t2) ∧
     countKey (DiscoveryListener.on_announce
        (DiscoveryListener.on_announce r m1 a t1) m2 a t2)
        (DiscoveryListener.announceProbe m2 a t2).key = 1 ∧
     (DiscoveryListener.on_announce
        (DiscoveryListener.on_announce r m1 a t1) m2 a t2).length
      = (DiscoveryListener.on_announce r m1 a t1).length ∧
     (DiscoveryListener.announceProbe m2 a t2).last_seen = t2 ∧
     (DiscoveryListener.announceProbe m2 a t2).uptime = m2.uptime.getD 0) ∧
    (∀ r' : Registry, ∀ pid? wsPort? : Option Int,
      dlookup (DiscoveryListener.on_goodbye r' pid? wsPort? a)
        (a ++ ":" ++ toString (pid?.getD 0) ++ ":"
          ++ toString (wsPort?.getD 9222)) = none) ∧
    (DiscoveryListener.prune_stale r now timeout
      = (r.filter (fun p => !(p.2.is_stale now timeout)),
         (r.filter (fun p => p.2.is_stale now timeout)).map Prod.fst)) := by
  have hnd1 : ((DiscoveryListener.on_announce r m1 a t1).map
      Prod.fst).Nodup := dset_nodup _ hnd
  refine ⟨⟨hnd1, countKey_dset _ _ hnd⟩, ⟨?_, ?_, ?_, rfl, rfl⟩, ?_, ?_⟩
  · exact dlookup_dset _ _ _
  · exact countKey_dset _ _ hnd1
  · refine dset_length_of_mem _ ?_
    rw [← hkey]
    have h1 : countKey (DiscoveryListener.on_announce r m1 a t1)
        (DiscoveryListener.announceProbe m1 a t1).key = 1 :=
      countKey_dset _ _ hnd
    by_contra hmem
    rw [countKey_eq_zero hmem] at h1
    cases h1
  · intro r' pid? wsPort?
    exact dlookup_dpop _ _
  · unfold DiscoveryListener.prune_stale
    refine Prod.ext ?_ rfl
    dsimp only
    rw [foldl_dpop]
    refine List.filter_congr ?_
    intro p hp
    by_cases hs : p.2.is_stale now timeout = true
    · have : p.1 ∈ (r.filter
          (fun p => p.2.is_stale now timeout)).map Prod.fst :=
        List.mem_map_of_mem Prod.fst (List.mem_filter.2 ⟨hp, hs⟩)
      simp [this, hs]
    · have : p.1 ∉ (r.filter
          (fun p => p.2.is_stale now timeout)).map Prod.fst := by
        intro hc
        obtain ⟨q, hq, hqk⟩ := List.mem_map.1 hc
        have hqr := List.mem_filter.1 hq
        have : q = p := eq_of_mem_nodup_keys hnd hqr.1 hp hqk
        rw [this] at hqr
        exact hs hqr.2
      simp [this, hs]

/-- C3 witness: the registry theorem applied to two concrete announces for
pid 7 on port 9300 from 10.0.0.5, over a registry already holding an
unrelated probe. -/
theorem C3_registry_identity_witness :
    dlookup (DiscoveryListener.on_announce
        (DiscoveryListener.on_announce
          [("10.0.0.9:1:9222",
            { app_name := "other", pid := 1, qt_version := "5.15"
            , ws_port := 9222, hostname := "h", mode := "all"
            , address := "10.0.0.9", last_seen := 0, uptime := 0 })]
          { pid := some 7, wsPort := some 9300, uptime := some 5 }
          "10.0.0.5" 1)
        { pid := some 7, wsPort := some 9300, uptime := some 9 }
        "10.0.0.5" 3)
      (DiscoveryListener.announceProbe
        { pid := some 7, wsPort := some 9300, uptime := some 9 }
        "10.0.0.5" 3).key
    = some (DiscoveryListener.announceProbe
        { pid := some 7, wsPort := some 9300, uptime := some 9 }
        "10.0.0.5" 3) :=
  ((C3_registry_identity
    [("10.0.0.9:1:9222",
      { app_name := "other", pid := 1, qt_version := "5.15"
      , ws_port := 9222, hostname := "h", mode := "all"
      , address := "10.0.0.9", last_seen := 0, uptime := 0 })]
    { pid := some 7, wsPort := some 9300, uptime := some 5 }
    { pid := some 7, wsPort := some 9300, uptime := some 9 }
    "10.0.0.5" 1 3 16 15 (by decide) rfl).2.1).1

/-! ## C8: event serialization -/

/-- The timestamp 1.2345s lands exactly on the rounding midpoint and
Python's round-half-to-even sends it DOWN to 1.234 (the even thousandth),
not up to 1.235. -/
theorem pyRound3_midpoint : pyRound3 (2469/2000) = 617/500 := by
  unfold pyRound3
  have h1 : ((2469 : ℚ)/2000) * 1000 = 2469/2 := by norm_num
  rw [h1]
  dsimp only
  have h2 : ⌊(2469/2 : ℚ)⌋ = 1234 := by
    rw [Int.floor_eq_iff]
    constructor <;> norm_num
  rw [h2]
  rw [if_neg (by norm_num), if_neg (by norm_num), if_pos (by norm_num)]
  norm_num

/-- The membership of a key survives a dict update. -/
theorem mem_keys_dictUpdate {β : Type} (x : String) :
    ∀ upd d : List (String × β), x ∈ d.map Prod.fst →
      x ∈ (dictUpdate d upd).map Prod.fst := by
  intro upd
  induction upd with
  | nil => intro d h; exact h
  | cons kv rest ih =>
    intro d h
    simp only [dictUpdate, List.foldl_cons] at ih ⊢
    apply ih
    rw [dset_keys]
    split
    · exact h
    · exact List.mem_append_left _ h

/-- C8 counterexample: the claimed serialized event for a signal-emitted
notification arriving exactly 1.2345 seconds after recording start is
wrong about the t field.  The code rounds 1.2345 to 3 decimals with
Python's round — half-to-even — giving 1.234 (617/500), not the claimed
1.235 (247/200); at this concrete input the recorder buffers one signal
event whose serialization carries t = 1.234. -/
theorem C8_counterexample :
    (EventRecorder.handle_notification
        { recording := true, start_time := 0 } (2469/2000)
        "qtmcp.signalEmitted"
        [ ("objectId", .str "btn"), ("objectName", .str "ok")
        , ("signal", .str "clicked"), ("arguments", .arr []) ]).map
        (fun st => st.events.map RecItem.to_dict)
      = some [[ ("t", .num (617/500)), ("type", .str "signal")
              , ("object", .str "btn"), ("name", .str "ok")
              , ("signal", .str "clicked"), ("args", .arr []) ]] ∧
    (617/500 : ℚ) ≠ 247/200 := by
  constructor
  · simp [EventRecorder.handle_notification, RecItem.to_dict,
      RecordedEvent.to_dict, dlookup, pyOrNone, Json.truthy,
      pyRound3_midpoint]
  · norm_num

/-- C8 (amended): the signal-emitted notification with objectId btn,
objectName ok, signal clicked and empty arguments arriving exactly 1.2345
seconds after start serializes to the claimed dict except that t is 1.234
— the code's round-half-to-even of the midpoint 1.2345 — not 1.235.  In
general every serialized event has t (3-decimal rounding), type and
object; name is present exactly when the stored object name is truthy
(non-empty); signal events consist of exactly t, type, object, the
optional name, signal and args; and input events also always carry t,
type and object. -/
theorem C8_serialization_shape (e : RecordedEvent)
    (ei : RecordedInputEvent) :
    ((EventRecorder.handle_notification
        { recording := true, start_time := 0 } (2469/2000)
        "qtmcp.signalEmitted"
        [ ("objectId", .str "btn"), ("objectName", .str "ok")
        , ("signal", .str "clicked"), ("arguments", .arr []) ]).map
        (fun st => st.events.map RecItem.to_dict)
      = some [[ ("t", .num (617/500)), ("type", .str "signal")
              , ("object", .str "btn"), ("name", .str "ok")
              , ("signal", .str "clicked"), ("args", .arr []) ]]) ∧
    (dlookup e.to_dict "t" = some (.num (pyRound3 e.timestamp)) ∧
     dlookup e.to_dict "type" = some (.str e.event_type) ∧
     dlookup e.to_dict "object" = some e.object_id) ∧
    (e.object_name = Option.none → dlookup e.to_dict "name" = Option.none) ∧
    (∀ n, e.object_name = some n →
      dlookup e.to_dict "name" = if n.truthy then some n else Option.none) ∧
    (e.event_type = "signal" →
      e.to_dict.map Prod.fst
        = ["t", "type", "object"]
          ++ (match e.object_name with
              | some n => if n.truthy then ["name"] else []
              | Option.none => []) ++ ["signal", "args"] ∧
      dlookup e.to_dict "signal" = some e.detail ∧
      dlookup e.to_dict "args" = some e.arguments) ∧
    ("t" ∈ ei.to_dict.map Prod.fst ∧ "type" ∈ ei.to_dict.map Prod.fst ∧
     "object" ∈ ei.to_dict.map Prod.fst) := by
  obtain ⟨ts, et, oid, onm, det, arg⟩ := e
  refine ⟨?_, ?_, ?_, ?_, ?_, ?_⟩
  · simp [EventRecorder.handle_notification, RecItem.to_dict,
      RecordedEvent.to_dict, dlookup, pyOrNone, Json.truthy,
      pyRound3_midpoint]
  · unfold RecordedEvent.to_dict
    dsimp only
    repeat' split
    all_goals simp [dlookup]
  · intro h
    have h' : onm = Option.none := h
    unfold RecordedEvent.to_dict
    dsimp only
    rw [h']
    repeat' split
    all_goals simp_all [dlookup]
  · intro n h
    have h' : onm = some n := h
    unfold RecordedEvent.to_dict
    dsimp only
    rw [h']
    by_cases hn : n.truthy = true
    · repeat' split
      all_goals simp_all [dlookup]
    · rw [Bool.not_eq_true] at hn
      repeat' split
      all_goals simp_all [dlookup]
  · intro h
    subst h
    unfold RecordedEvent.to_dict
    dsimp only
    rcases onm with _ | n
    · simp [dlookup]
    · by_cases hn : n.truthy = true
      · simp [dlookup, hn]
      · rw [Bool.not_eq_true] at hn
        simp [dlookup, hn]
  · obtain ⟨tsi, eti, oidi, onmi, cni, deti⟩ := ei
    unfold RecordedInputEvent.to_dict
    dsimp only
    refine ⟨mem_keys_dictUpdate _ _ _ ?_, mem_keys_dictUpdate _ _ _ ?_,
      mem_keys_dictUpdate _ _ _ ?_⟩
    all_goals simp

/-- C8 witness: the shape theorem applied to a concrete signal event with
a truthy name. -/
theorem C8_serialization_shape_witness :
    dlookup (RecordedEvent.to_dict
      { timestamp := 1, event_type := "signal", object_id := .str "b"
      , object_name := some (.str "nm"), detail := .str "sig"
      , arguments := .arr [] }) "name" = some (.str "nm") := by
  have h := (C8_serialization_shape
    { timestamp := 1, event_type := "signal", object_id := .str "b"
    , object_name := some (.str "nm"), detail := .str "sig"
    , arguments := .arr [] }
    { timestamp := 0, event_type := "KeyPress", object_id := .str "o"
    , object_name := Option.none, class_name := .str ""
    , detail := [] }).2.2.2.1 (.str "nm") rfl
  simpa [Json.truthy] using h

/-! ## C9: readiness waiter -/

/-- The value of the back-off delay variable after n failed attempts,
starting from an arbitrary delay (the loop starts it at 0.5). -/
def delayShift (d : ℚ) : Nat → ℚ
  | 0 => d
  | n + 1 => delayShift (min (d * 2) 4) n

/-- Unfolding of the delay evolution at the tail. -/
theorem delayShift_succ (n : Nat) : ∀ d : ℚ,
    delayShift d (n + 1) = min (delayShift d n * 2) 4 := by
  induction n with
  | zero => intro d; rfl
  | succ n ih =>
    intro d
    show delayShift (min (d * 2) 4) (n + 1) = _
    rw [ih (min (d * 2) 4)]
    rfl

/-- The delay variable follows the claimed schedule: 0.5s doubled after
each failed attempt, capped at 4s. -/
theorem delayShift_half (n : Nat) :
    delayShift (1/2) n = min ((1/2) * 2 ^ n) 4 := by
  induction n with
  | zero =>
    show (1/2 : ℚ) = _
    rw [pow_zero, mul_one]
    rw [min_eq_left (by norm_num)]
  | succ n ih =>
    rw [delayShift_succ, ih]
    rw [min_mul_of_nonneg _ _ (by norm_num : (0:ℚ) ≤ 2)]
    rw [min_assoc]
    congr 1
    · ring
    · norm_num

/-- Running the retry loop past n retry-eligible iterations: the loop
reaches iteration k + n with the delay shifted n times, having slept
min(delay, remaining) after each failed attempt. -/
theorem waitLoop_skip (env : WaitEnv) (deadline timeout : ℚ) :
    ∀ (n : Nat) (d : ℚ) (k fuel : Nat),
      (∀ j, j < n → 0 < deadline - env.times (k + j) ∧
        env.procExit (k + j) = none ∧ env.connectOk (k + j) = false) →
      waitLoop env deadline timeout d k (n + fuel)
        = ((waitLoop env deadline timeout (delayShift d n) (k + n) fuel).1,
           ((List.range n).map (fun j =>
             min (delayShift d j) (deadline - env.times (k + j))))
           ++ (waitLoop env deadline timeout (delayShift d n)
                (k + n) fuel).2) := by
  intro n
  induction n with
  | zero =>
    intro d k fuel _
    simp [delayShift]
  | succ n ih =>
    intro d k fuel H
    obtain ⟨h0, hp0, hc0⟩ := H 0 (Nat.succ_pos n)
    rw [Nat.succ_add]
    show waitLoop env deadline timeout d k (n + fuel + 1) = _
    rw [waitLoop]
    rw [if_neg (by rw [Nat.add_zero] at h0; exact not_le.2 h0)]
    rw [Nat.add_zero] at hp0 hc0
    rw [hp0, hc0]
    dsimp only
    rw [if_neg (by simp)]
    have ih' := ih (min (d * 2) 4) (k + 1) fuel (fun j hj => by
      have hcond := H (j + 1) (Nat.succ_lt_succ hj)
      have h2 : k + (j + 1) = k + 1 + j := by omega
      rwa [h2] at hcond)
    rw [ih']
    have hk : k + 1 + n = k + (n + 1) := by omega
    have hds : delayShift (min (d * 2) 4) n = delayShift d (n + 1) := rfl
    rw [hk, hds]
    refine congrArg _ ?_
    rw [List.range_succ_eq_map, List.map_cons, List.map_map]
    simp only [delayShift, Nat.add_zero, List.cons_append]
    congr 1
    refine congrArg (fun l => l ++ _) ?_
    refine List.map_congr_left ?_
    intro j hj
    simp only [Function.comp]
    have h1 : k + (j + 1) = k + 1 + j := by omega
    rw [h1]
    rfl

/-- C9: Phase 2 of the readiness wait.  Under the hypothesis that the
first n iterations were retry-eligible (deadline not reached, process
alive, connect failed), the loop reaches attempt n+1 having slept, after
each failed attempt j, min(delay_j, remaining) where the delay follows
exactly the 0.5s schedule doubled after each failed attempt and capped at
4s; it returns connected(n+1) as soon as a connect succeeds; it raises
the timed-out error as soon as the deadline is reached; and — checked
before the connect attempt, hence with no assumption on whether that
connect would succeed — it aborts with the process exit code and the
stderr text truncated to at most 500 characters as soon as the launched
process handle shows the process has exited. -/
theorem C9_ready_wait (env : WaitEnv) (start timeout : ℚ) (n fuel : Nat)
    (hfuel : n < fuel)
    (H : ∀ j, j < n → 0 < start + timeout - env.times j ∧
      env.procExit j = none ∧ env.connectOk j = false) :
    (0 < start + timeout - env.times n → env.procExit n = none →
      env.connectOk n = true →
      wait_for_probe_ready env start timeout fuel
        = (.connected (n + 1),
           (List.range n).map (fun j =>
             min (min ((1/2) * 2 ^ j) 4) (start + timeout - env.times j)))) ∧
    (start + timeout - env.times n ≤ 0 →
      wait_for_probe_ready env start timeout fuel
        = (.timedOut timeout,
           (List.range n).map (fun j =>
             min (min ((1/2) * 2 ^ j) 4) (start + timeout - env.times j)))) ∧
    (∀ rc, 0 < start + timeout - env.times n → env.procExit n = some rc →
      wait_for_probe_ready env start timeout fuel
        = (.procDead rc (env.stderrText.take 500),
           (List.range n).map (fun j =>
             min (min ((1/2) * 2 ^ j) 4) (start + timeout - env.times j))) ∧
      (env.stderrText.take 500).length ≤ 500) ∧
    (∀ j, delayShift (1/2) j = min ((1/2) * 2 ^ j) 4) := by
  have hm : fuel = n + (fuel - n - 1 + 1) := by omega
  have H0 : ∀ j, j < n → 0 < start + timeout - env.times (0 + j) ∧
      env.procExit (0 + j) = none ∧ env.connectOk (0 + j) = false := by
    intro j hj
    rw [Nat.zero_add]
    exact H j hj
  have hskip := waitLoop_skip env (start + timeout) timeout n (1/2) 0
    (fuel - n - 1 + 1) H0
  have hsl : (List.range n).map (fun j =>
      min (delayShift (1/2) j) (start + timeout - env.times (0 + j)))
      = (List.range n).map (fun j =>
      min (min ((1/2) * 2 ^ j) 4) (start + timeout - env.times j)) := by
    refine List.map_congr_left ?_
    intro j _
    rw [delayShift_half, Nat.zero_add]
  have key : wait_for_probe_ready env start timeout fuel
      = ((waitLoop env (start + timeout) timeout (delayShift (1/2) n)
            (0 + n) (fuel - n - 1 + 1)).1,
         (List.range n).map (fun j =>
            min (min ((1/2) * 2 ^ j) 4) (start + timeout - env.times j))
         ++ (waitLoop env (start + timeout) timeout (delayShift (1/2) n)
            (0 + n) (fuel - n - 1 + 1)).2) := by
    unfold wait_for_probe_ready
    nth_rewrite 1 [hm]
    rw [hskip, hsl]
  refine ⟨?_, ?_, ?_, delayShift_half⟩
  · intro h1 h2 h3
    have hstep : waitLoop env (start + timeout) timeout (delayShift (1/2) n)
        (0 + n) (fuel - n - 1 + 1) = (.connected (n + 1), []) := by
      rw [waitLoop]
      dsimp only
      rw [Nat.zero_add, if_neg (not_le.2 h1), h2]
      dsimp only
      rw [h3]
      simp
    rw [key, hstep]
    simp
  · intro h1
    have hstep : waitLoop env (start + timeout) timeout (delayShift (1/2) n)
        (0 + n) (fuel - n - 1 + 1) = (.timedOut timeout, []) := by
      rw [waitLoop]
      dsimp only
      rw [Nat.zero_add, if_pos h1]
    rw [key, hstep]
    simp
  · intro rc h1 h2
    have hstep : waitLoop env (start + timeout) timeout (delayShift (1/2) n)
        (0 + n) (fuel - n - 1 + 1)
        = (.procDead rc (env.stderrText.take 500), []) := by
      rw [waitLoop]
      dsimp only
      rw [Nat.zero_add, if_neg (not_le.2 h1), h2]
    refine ⟨?_, ?_⟩
    · rw [key, hstep]
      simp
    · rw [List.length_take]
      exact min_le_left _ _

/-- C9 witness: a launch where the clock ticks one second per iteration
within a 30-second budget, the process stays alive, and the third attempt
connects: the waiter returns connected at attempt 3 after sleeping 0.5s
and 1s. -/
theorem C9_ready_wait_witness :
    wait_for_probe_ready
      { times := fun k => (k : ℚ), procExit := fun _ => none
      , stderrText := [], connectOk := fun k => decide (k = 2) }
      0 30 10
    = (.connected 3, [1/2, 1]) := by
  have h := (C9_ready_wait
    { times := fun k => (k : ℚ), procExit := fun _ => none
    , stderrText := [], connectOk := fun k => decide (k = 2) }
    0 30 2 10 (by norm_num)
    (fun j hj => by
      refine ⟨?_, rfl, ?_⟩
      · have : (j : ℚ) < 30 := by
          have : (j : ℚ) ≤ 2 := by exact_mod_cast Nat.le_of_lt_succ (by omega)
          linarith
        linarith
      · simp
        omega)).1
    (by norm_num) rfl (by simp)
  rw [h]
  norm_num [List.range_succ]

end QtMcp

